import Mathlib

/-!
# Managed services broker: provisioning controller and fuse deployer

A shallow embedding of

* `pkg/broker/controller/controller.go`: the deployer registry, the instance
  map and the lifecycle operations of `userProvidedController`;
* `pkg/deploys/fuse/deployer.go`: `LastOperation`, `getPodStatus` and
  `getRouteHostname` of `FuseDeployer`.

Conventions of the embedding.

* A Go pointer that the code dereferences is an `Option`; dereferencing `nil`
  is the outcome `Outcome.panic`.
* A Go `map[string]V` is an `AList` (association list without duplicate keys).
  The order in which `range` visits a map is not fixed by the language, so a
  function that ranges over a map takes the visiting order as an argument, and
  `IsRangeOrder` says which orders the runtime may choose.
* Calls to collaborators that touch the cluster (a deployer's `Deploy`, the
  OpenShift clients) pass an explicit world `ω` and return the world after the
  call. A function that returns its input world unchanged, for every choice of
  `ω` and of collaborators, made no such call.
* The controller is a pointer receiver: every method returns the controller
  after the call next to its results.
* Locking (`rwMutex`) and logging (`glog`) are not modelled; the embedding is
  sequential.
-/

/-- Go `error` values built in the two packages: `errNoSuchInstance`,
`errors.New` (also used for the errors handed back by collaborators) and
`errors.Wrap`. -/
inductive GoError where
  | errNoSuchInstance (instanceID : String)
  | fundamental (msg : String)
  | withStack (cause : GoError) (msg : String)
  deriving DecidableEq, Repr

namespace GoError

/-- The `Error()` method. For `errNoSuchInstance` it is
`fmt.Sprintf("no such instance with ID %s", e.instanceID)`; for a wrapped
error `errors.Wrap` yields `msg + ": " + cause.Error()`. -/
def Error : GoError → String
  | errNoSuchInstance instanceID => "no such instance with ID " ++ instanceID
  | fundamental msg => msg
  | withStack cause msg => msg ++ ": " ++ cause.Error

end GoError

/-- Result of running code that may dereference a nil pointer. -/
inductive Outcome (α : Type) where
  | ret (a : α)
  | panic

namespace http

/-- Go `net/http` status 500. -/
def StatusInternalServerError : Nat := 500

/-- Go `net/http` status 202. -/
def StatusAccepted : Nat := 202

end http

namespace brokerapi

/-- Modelled from the spec: the package `pkg/broker` is not part of the
sources; its operation states are the three states `InProgress`, `Succeeded`
and `Failed` of the spec, with the string values of the Open Service Broker
protocol. -/
def StateInProgress : String := "in progress"

/-- Modelled from the spec: see `StateInProgress`. -/
def StateSucceeded : String := "succeeded"

/-- Modelled from the spec: see `StateInProgress`. -/
def StateFailed : String := "failed"

/-- Modelled from the spec: `brokerapi.CreateServiceInstanceRequest`, of which
the controller reads the field `ServiceID` only. -/
structure CreateServiceInstanceRequest where
  ServiceID : String
  deriving DecidableEq, Repr

/-- Modelled from the spec: `brokerapi.CreateServiceInstanceResponse` with the
fields the sources set (`Code`, `Operation`, `DashboardURL`); a field left out
of a Go composite literal has its zero value. -/
structure CreateServiceInstanceResponse where
  Code : Nat := 0
  Operation : String := ""
  DashboardURL : String := ""
  deriving DecidableEq, Repr

/-- Modelled from the spec: `brokerapi.DeleteServiceInstanceResponse`; the
controller only ever builds its zero value. -/
structure DeleteServiceInstanceResponse where
  Operation : String := ""
  deriving DecidableEq, Repr

/-- Modelled from the spec: `brokerapi.LastOperationResponse`. -/
structure LastOperationResponse where
  State : String := ""
  Description : String := ""
  deriving DecidableEq, Repr

/-- Modelled from the spec: `brokerapi.CreateServiceBindingResponse`, holding
a credential by value. -/
structure CreateServiceBindingResponse (Cred : Type) where
  Credentials : Cred

/-- Modelled from the spec: `brokerapi.Catalog`, a sequence of services. -/
structure Catalog (Svc : Type) where
  Services : List Svc

end brokerapi

namespace controller

/-- The `Deployer` interface. `GetCatalogEntries`, `GetID` and `DoesDeploy`
are read-only; `Deploy` acts on the cluster. -/
structure Deployer (ω κ ρ Svc : Type) where
  GetCatalogEntries : List Svc
  Deploy : String → κ → ρ → ω →
    (Option brokerapi.CreateServiceInstanceResponse × Option GoError) × ω
  GetID : String
  DoesDeploy : String → Bool

/-- The struct `userProvidedServiceInstance`; `Credential` is a pointer. -/
structure userProvidedServiceInstance (Cred : Type) where
  Name : String
  Credential : Option Cred

/-- The struct `userProvidedController` (without `rwMutex`). The values of
`instanceMap` are pointers. -/
structure userProvidedController (ω κ ρ Svc Cred : Type) where
  instanceMap : AList (fun _ : String => Option (userProvidedServiceInstance Cred))
  k8sclient : κ
  brokerNS : String
  kubeconfig : ρ
  registeredDeployers : AList (fun _ : String => Deployer ω κ ρ Svc)

variable {ω κ ρ Svc Cred : Type}

/-- The function `CreateController`. -/
def CreateController (brokerNS : String) (k8sclient : κ) (kubeconfig : ρ) :
    userProvidedController ω κ ρ Svc Cred :=
  { instanceMap := ∅
    brokerNS := brokerNS
    k8sclient := k8sclient
    kubeconfig := kubeconfig
    registeredDeployers := ∅ }

/-- The orders in which `range c.registeredDeployers` may yield the values of
the map: every entry exactly once. -/
def IsRangeOrder (m : AList (fun _ : String => Deployer ω κ ρ Svc))
    (order : List (Deployer ω κ ρ Svc)) : Prop :=
  order.Perm (m.entries.map Sigma.snd)

namespace userProvidedController

/-- The method `RegisterDeployer`:
`c.registeredDeployers[deployer.GetID()] = deployer`. -/
def RegisterDeployer (c : userProvidedController ω κ ρ Svc Cred)
    (deployer : Deployer ω κ ρ Svc) : userProvidedController ω κ ρ Svc Cred :=
  { c with registeredDeployers := c.registeredDeployers.insert deployer.GetID deployer }

/-- The loop of `Catalog`: `services = append(services, deployer.GetCatalogEntries()...)`
for each deployer in visiting order. -/
def Catalog.loop : List (Deployer ω κ ρ Svc) → List Svc → List Svc
  | [], services => services
  | deployer :: rest, services => Catalog.loop rest (services ++ deployer.GetCatalogEntries)

/-- The method `Catalog`. It resets the package-level variable `services`,
fills it and returns it inside the catalog; the last component of the result
is the value of `services` after the call. -/
def Catalog (c : userProvidedController ω κ ρ Svc Cred) (order : List (Deployer ω κ ρ Svc)) :
    (Option (brokerapi.Catalog Svc) × Option GoError) ×
      userProvidedController ω κ ρ Svc Cred × List Svc :=
  let services := Catalog.loop order []
  ((some { Services := services }, none), c, services)

/-- The loop of `CreateServiceInstance`: the first deployer in visiting order
with `DoesDeploy(req.ServiceID)` is asked to `Deploy`; reading `req.ServiceID`
through a nil `req` panics. -/
def CreateServiceInstance.loop (c : userProvidedController ω κ ρ Svc Cred) (id : String)
    (req : Option brokerapi.CreateServiceInstanceRequest) :
    List (Deployer ω κ ρ Svc) → ω →
      Outcome (Option brokerapi.CreateServiceInstanceResponse × Option GoError) × ω
  | [], w =>
    (.ret (some { Code := http.StatusInternalServerError, Operation := "provision" }, none), w)
  | deployer :: rest, w =>
    match req with
    | none => (.panic, w)
    | some r =>
      if deployer.DoesDeploy r.ServiceID then
        ((.ret (deployer.Deploy id c.k8sclient c.kubeconfig w).1),
          (deployer.Deploy id c.k8sclient c.kubeconfig w).2)
      else CreateServiceInstance.loop c id req rest w

/-- The method `CreateServiceInstance`. -/
def CreateServiceInstance (c : userProvidedController ω κ ρ Svc Cred)
    (order : List (Deployer ω κ ρ Svc)) (id : String)
    (req : Option brokerapi.CreateServiceInstanceRequest) (w : ω) :
    Outcome (Option brokerapi.CreateServiceInstanceResponse × Option GoError) ×
      userProvidedController ω κ ρ Svc Cred × ω :=
  ((CreateServiceInstance.loop c id req order w).1, c,
    (CreateServiceInstance.loop c id req order w).2)

/-- The method `GetServiceInstanceLastOperation`. -/
def GetServiceInstanceLastOperation (c : userProvidedController ω κ ρ Svc Cred)
    (_instanceID _serviceID _planID _operation : String) :
    (Option brokerapi.LastOperationResponse × Option GoError) ×
      userProvidedController ω κ ρ Svc Cred :=
  ((none, some (.fundamental "Unimplemented")), c)

/-- The method `RemoveServiceInstance`. -/
def RemoveServiceInstance (c : userProvidedController ω κ ρ Svc Cred)
    (_instanceID _serviceID _planID : String) (_acceptsIncomplete : Bool) :
    (Option brokerapi.DeleteServiceInstanceResponse × Option GoError) ×
      userProvidedController ω κ ρ Svc Cred :=
  ((some {}, none), c)

/-- The method `Bind`. `instance.Credential` and `*cred` dereference the
pointer stored in the map and the credential pointer of the record. -/
def Bind {β : Type} (c : userProvidedController ω κ ρ Svc Cred)
    (instanceID _bindingID : String) (_req : Option β) :
    Outcome (Option (brokerapi.CreateServiceBindingResponse Cred) × Option GoError) ×
      userProvidedController ω κ ρ Svc Cred :=
  match c.instanceMap.lookup instanceID with
  | none => (.ret (none, some (.errNoSuchInstance instanceID)), c)
  | some none => (.panic, c)
  | some (some inst) =>
    match inst.Credential with
    | none => (.panic, c)
    | some cred => (.ret (some { Credentials := cred }, none), c)

/-- The method `UnBind`. -/
def UnBind (c : userProvidedController ω κ ρ Svc Cred)
    (_instanceID _bindingID _serviceID _planID : String) :
    Option GoError × userProvidedController ω κ ρ Svc Cred :=
  (none, c)

end userProvidedController

end controller

namespace controller

/-- One call of a `Controller` method, with its arguments; for the two methods
that range over the registry, also the visiting order taken by the runtime. -/
inductive Op (ω κ ρ Svc β : Type) where
  | RegisterDeployer (deployer : Deployer ω κ ρ Svc)
  | Catalog (order : List (Deployer ω κ ρ Svc))
  | CreateServiceInstance (order : List (Deployer ω κ ρ Svc)) (id : String)
      (req : Option brokerapi.CreateServiceInstanceRequest)
  | GetServiceInstanceLastOperation (instanceID serviceID planID operation : String)
  | RemoveServiceInstance (instanceID serviceID planID : String) (acceptsIncomplete : Bool)
  | Bind (instanceID bindingID : String) (req : Option β)
  | UnBind (instanceID bindingID serviceID planID : String)

/-- A call can happen in controller state `c` when its visiting order is one
the runtime may take for the registry of `c`. -/
def Op.Enabled {β : Type} (c : userProvidedController ω κ ρ Svc Cred) : Op ω κ ρ Svc β → Prop
  | .Catalog order => IsRangeOrder c.registeredDeployers order
  | .CreateServiceInstance order _ _ => IsRangeOrder c.registeredDeployers order
  | _ => True

/-- The controller and the cluster after one call. -/
def step {β : Type} (s : userProvidedController ω κ ρ Svc Cred × ω) :
    Op ω κ ρ Svc β → userProvidedController ω κ ρ Svc Cred × ω
  | .RegisterDeployer deployer => (s.1.RegisterDeployer deployer, s.2)
  | .Catalog order => ((s.1.Catalog order).2.1, s.2)
  | .CreateServiceInstance order id req => (s.1.CreateServiceInstance order id req s.2).2
  | .GetServiceInstanceLastOperation instanceID serviceID planID operation =>
    ((s.1.GetServiceInstanceLastOperation instanceID serviceID planID operation).2, s.2)
  | .RemoveServiceInstance instanceID serviceID planID acceptsIncomplete =>
    ((s.1.RemoveServiceInstance instanceID serviceID planID acceptsIncomplete).2, s.2)
  | .Bind instanceID bindingID req => ((s.1.Bind instanceID bindingID req).2, s.2)
  | .UnBind instanceID bindingID serviceID planID =>
    ((s.1.UnBind instanceID bindingID serviceID planID).2, s.2)

/-- States reached from `CreateController` by a sequence of calls. -/
inductive Reachable (β : Type) : userProvidedController ω κ ρ Svc Cred × ω → Prop where
  | create (brokerNS : String) (k8sclient : κ) (kubeconfig : ρ) (w : ω) :
    Reachable β (CreateController brokerNS k8sclient kubeconfig, w)
  | call (s : userProvidedController ω κ ρ Svc Cred × ω) (op : Op ω κ ρ Svc β) :
    Reachable β s → op.Enabled s.1 → Reachable β (step s op)

/-- The deployers whose registration is still in force after registering the
deployers of the list from left to right: for each identity the one registered
last. -/
def lastRegistered : List (Deployer ω κ ρ Svc) → List (Deployer ω κ ρ Svc)
  | [] => []
  | d :: rest =>
    if rest.any (fun e => e.GetID == d.GetID) then lastRegistered rest
    else d :: lastRegistered rest

/-- A fresh controller after the calls `RegisterDeployer(d)` for the deployers
`d` of `regs`, from left to right. -/
def registerAll (regs : List (Deployer ω κ ρ Svc)) (brokerNS : String) (k8sclient : κ)
    (kubeconfig : ρ) : userProvidedController ω κ ρ Svc Cred :=
  regs.foldl userProvidedController.RegisterDeployer
    (CreateController brokerNS k8sclient kubeconfig)

end controller

namespace strings

/-- Go standard library `strings.Trim(s, cutset)`: the string `s` with all
leading and trailing Unicode code points contained in `cutset` removed. -/
def Trim (s cutset : String) : String :=
  ⟨((s.data.dropWhile (fun ch => decide (ch ∈ cutset.data))).reverse.dropWhile
    (fun ch => decide (ch ∈ cutset.data))).reverse⟩

end strings

namespace fuse

/-- One entry of `pod.Status.Conditions` of an OpenShift deployment config. -/
structure DeploymentCondition where
  Status : String
  Message : String
  deriving DecidableEq, Repr

/-- The part of a deployment config read by `getPodStatus`:
`pod.Status.Conditions`. -/
structure DeploymentConfig where
  Conditions : List DeploymentCondition
  deriving DecidableEq, Repr

/-- The deployment-config client: `Get namespace name` stands for
`dcClient.DeploymentConfigs(namespace).Get(name, metav1.GetOptions{})`. -/
structure AppsV1Client (ω : Type) where
  Get : String → String → ω → Except GoError DeploymentConfig × ω

/-- The part of a route read by `getRouteHostname`: `route.Name`,
`route.Namespace` and `route.Spec.Host`. -/
structure Route where
  Name : String
  Namespace : String
  Host : String
  deriving DecidableEq, Repr

/-- The route client: `Get namespace name` stands for
`routeClient.Routes(namespace).Get(name, metav1.GetOptions{})`. -/
structure RouteV1Client (ω : Type) where
  Get : String → String → ω → Except GoError Route × ω

/-- The client for the `Syndesis` custom resource: `Create routeHostName
userNamespace` stands for `fuseClient.Create` applied to `getFuseObj(userNamespace)`
with `Spec.RouteHostName` set. -/
structure ResourceClient (ω : Type) where
  Create : String → String → ω → Option GoError × ω

/-- Modelled from the spec: `openshift.ClientFactory` (package
`pkg/clients/openshift`, not part of the sources) hands out the typed clients
or an error. -/
structure ClientFactory (ω : Type) where
  AppsClient : Except GoError (AppsV1Client ω)
  RouteClient : Except GoError (RouteV1Client ω)

variable {ω : Type}

/-- The loop of `getPodStatus` over `pod.Status.Conditions`. -/
def getPodStatus.loop : List DeploymentCondition → String × String × Option GoError
  | [] => (brokerapi.StateSucceeded, "", none)
  | v :: rest =>
    if v.Status = "False" then (brokerapi.StateInProgress, v.Message, none)
    else getPodStatus.loop rest

/-- The method `getPodStatus`. The deployment config fetched is the one named
`"syndesis-oauthproxy"`, whatever `podName` is. -/
def getPodStatus (_podName nspace : String) (dcClient : AppsV1Client ω) (w : ω) :
    (String × String × Option GoError) × ω :=
  match dcClient.Get nspace "syndesis-oauthproxy" w with
  | (.error err, w1) =>
    ((brokerapi.StateFailed, "Failed to get status of oauthproxy",
      some (.withStack err "failed to get status of oauthproxy")), w1)
  | (.ok pod, w1) => (getPodStatus.loop pod.Conditions, w1)

/-- The slice `podsToWatch` of `LastOperation`. -/
def podsToWatch : List String := ["syndesis-oauthproxy", "syndesis-server", "syndesis-ui"]

/-- The loop of `LastOperation` over `podsToWatch`. -/
def LastOperation.loop (nspace : String) (dcClient : AppsV1Client ω) :
    List String → ω → (brokerapi.LastOperationResponse × Option GoError) × ω
  | [], w =>
    (({ State := brokerapi.StateSucceeded, Description := "fuse deployed successfully" }, none), w)
  | v :: rest, w =>
    if (getPodStatus v nspace dcClient w).1.1 ≠ brokerapi.StateSucceeded then
      (({ State := (getPodStatus v nspace dcClient w).1.1
          Description := (getPodStatus v nspace dcClient w).1.2.1 },
        (getPodStatus v nspace dcClient w).1.2.2), (getPodStatus v nspace dcClient w).2)
    else LastOperation.loop nspace dcClient rest (getPodStatus v nspace dcClient w).2

/-- The method `LastOperation` (its argument `k8sclient` is not used). -/
def LastOperation (instanceID : String) (osclient : ClientFactory ω) (w : ω) :
    (brokerapi.LastOperationResponse × Option GoError) × ω :=
  match osclient.AppsClient with
  | .error err =>
    (({ State := brokerapi.StateFailed
        Description := "Failed to create an openshift deployment config client" },
      some (.withStack err "failed to create an openshift deployment config client")), w)
  | .ok dcClient => LastOperation.loop ("fuse-" ++ instanceID) dcClient podsToWatch w

/-- The method `getRouteHostname`. -/
def getRouteHostname (nspace : String) (osClientFactory : ClientFactory ω) (w : ω) :
    (String × Option GoError) × ω :=
  match osClientFactory.RouteClient with
  | .error err => (("", some (.withStack err "failed to create openshift route client")), w)
  | .ok routeClient =>
    match routeClient.Get "default" "registry-console" w with
    | (.error err, w1) =>
      (("", some (.withStack err "failed to get registry-console route")), w1)
    | (.ok route, w1) =>
      (("fuse-" ++ nspace ++ strings.Trim route.Host (route.Name ++ "-" ++ route.Namespace),
        none), w1)

/-- The method `createFuseCustomResource`; `getResourceClient` stands for
`k8sClient.GetResourceClient("syndesis.io/v1alpha1", "Syndesis", namespace)`. -/
def createFuseCustomResource (nspace userNamespace : String)
    (getResourceClient : String → Except GoError (ResourceClient ω))
    (osClientFactory : ClientFactory ω) (w : ω) : (String × Option GoError) × ω :=
  match getResourceClient nspace with
  | .error err => (("", some (.withStack err "failed to create fuse client")), w)
  | .ok fuseClient =>
    match getRouteHostname nspace osClientFactory w with
    | ((_, some err), w1) =>
      (("", some (.withStack err "failed to get fuse dashboard url")), w1)
    | ((fuseDashboardURL, none), w1) =>
      match fuseClient.Create fuseDashboardURL userNamespace w1 with
      | (some err, w2) =>
        (("", some (.withStack err "failed to create a fuse custom resource")), w2)
      | (none, w2) => (("https://" ++ fuseDashboardURL, none), w2)

end fuse

/-! ## Concrete inputs -/

namespace Example

open controller

/-- A deployer for one service: it offers `entries`, deploys `serviceID` and
records each deployment in the world, a log of strings. -/
def deployer (id serviceID : String) (entries : List String) :
    Deployer (List String) Unit Unit String :=
  { GetCatalogEntries := entries
    GetID := id
    DoesDeploy := fun s => s == serviceID
    Deploy := fun instanceID _ _ w =>
      ((some { Code := http.StatusAccepted, DashboardURL := "https://" ++ id ++ "-" ++ instanceID },
        none), w ++ [id ++ "/" ++ instanceID]) }

/-- A deployer registered as `fuse`. -/
def fuseD : Deployer (List String) Unit Unit String :=
  deployer "fuse" "fuse-service-id" ["fuse"]

/-- A second deployer with the identity `fuse`, offering another entry. -/
def fuseD2 : Deployer (List String) Unit Unit String :=
  deployer "fuse" "fuse-service-id" ["fuse-v2"]

/-- A deployer registered as `launcher`. -/
def launcherD : Deployer (List String) Unit Unit String :=
  deployer "launcher" "launcher-service-id" ["launcher"]

/-- A fresh controller. -/
def fresh : userProvidedController (List String) Unit Unit String String :=
  CreateController "broker" () ()

/-- A controller state holding one instance record with a credential. -/
def withInstance : userProvidedController (List String) Unit Unit String String :=
  { fresh with
    instanceMap := (∅ : AList _).insert "i1" (some { Name := "one", Credential := some "secret" }) }

/-- The controller after registering `fuseD`. -/
def registry1 : userProvidedController (List String) Unit Unit String String :=
  fresh.RegisterDeployer fuseD

/-- The controller after registering `fuseD` and then `launcherD`. -/
def registry2 : userProvidedController (List String) Unit Unit String String :=
  (fresh.RegisterDeployer fuseD).RegisterDeployer launcherD

/-- The controller after registering `fuseD`, `launcherD` and then `fuseD2`. -/
def registry3 : userProvidedController (List String) Unit Unit String String :=
  registerAll [fuseD, launcherD, fuseD2] "broker" () ()

/-- The state reached from a fresh controller by registering `fuseD` and then
creating the instance `i1` of the fuse service. -/
def afterCreate : userProvidedController (List String) Unit Unit String String × List String :=
  step (step (fresh, []) (Op.RegisterDeployer fuseD : Op (List String) Unit Unit String Unit))
    (Op.CreateServiceInstance [fuseD] "i1" (some { ServiceID := "fuse-service-id" }) :
      Op (List String) Unit Unit String Unit)

/-- A cluster in which the deployment config `syndesis-oauthproxy` is ready,
`syndesis-server` has a condition with status `False`, and no other deployment
config exists. -/
def cluster (name : String) : Except GoError fuse.DeploymentConfig :=
  if name = "syndesis-oauthproxy" then
    .ok { Conditions := [{ Status := "True", Message := "" }] }
  else if name = "syndesis-server" then
    .ok { Conditions := [{ Status := "False", Message := "replication controller is not ready" }] }
  else .error (.fundamental "deploymentconfig not found")

/-- A deployment-config client for `cluster`; the world is the log of the
pairs (namespace, name) fetched. -/
def dcClient : fuse.AppsV1Client (List (String × String)) :=
  { Get := fun nspace name w => (cluster name, w ++ [(nspace, name)]) }

/-- A route client of a cluster with the domain `127.0.0.1.nip.io`: the route
`name` of namespace `nspace` has the host `name-nspace.127.0.0.1.nip.io`. -/
def routeClient : fuse.RouteV1Client (List (String × String)) :=
  { Get := fun nspace name w =>
      (.ok { Name := name, Namespace := nspace,
             Host := name ++ "-" ++ nspace ++ ".127.0.0.1.nip.io" }, w ++ [(nspace, name)]) }

/-- A client factory for `dcClient` and `routeClient`. -/
def osclient : fuse.ClientFactory (List (String × String)) :=
  { AppsClient := .ok dcClient, RouteClient := .ok routeClient }

/-- A deployment-config client whose answers change over time: the world
counts the fetches made, and only the second fetch finds a condition with
status `False`. -/
def pollingClient : fuse.AppsV1Client Nat :=
  { Get := fun _ _ n =>
      (.ok { Conditions := if n = 1 then [{ Status := "False", Message := "rollout in progress" }]
                           else [] }, n + 1) }

/-- A client factory handing out `pollingClient`. -/
def pollingFactory : fuse.ClientFactory Nat :=
  { AppsClient := .ok pollingClient
    RouteClient := .error (.fundamental "no route client") }

end Example

/-! ## The instance map and `Bind` -/

namespace controller

open userProvidedController

variable {ω κ ρ Svc Cred : Type}

/-- C1: in every controller state, for an instance ID `i` that is not a key of
the instance map, `Bind(i, bindingID, req)` returns a nil response together
with the error `errNoSuchInstance` carrying `i`, whose message is
`"no such instance with ID " ++ i`, for every `bindingID` and `req`; no
credential is returned. -/
theorem Bind_unknown_instance {β : Type} (c : userProvidedController ω κ ρ Svc Cred)
    (i bindingID : String) (req : Option β) (h : i ∉ c.instanceMap) :
    c.Bind i bindingID req = (Outcome.ret (none, some (GoError.errNoSuchInstance i)), c) ∧
      (GoError.errNoSuchInstance i).Error = "no such instance with ID " ++ i := by
  have hl : c.instanceMap.lookup i = none := AList.lookup_eq_none.mpr h
  refine ⟨?_, rfl⟩
  unfold userProvidedController.Bind
  rw [hl]

/-- Witness for C1: a map that holds `i1` only, asked for `i2`. -/
theorem Bind_unknown_instance_witness :
    "i2" ∉ Example.withInstance.instanceMap ∧
      Example.withInstance.Bind "i2" "b" (none : Option Unit) =
        (Outcome.ret (none, some (GoError.errNoSuchInstance "i2")), Example.withInstance) ∧
      (GoError.errNoSuchInstance "i2").Error = "no such instance with ID i2" :=
  ⟨by decide, Bind_unknown_instance Example.withInstance "i2" "b" none (by decide)⟩

/-- C2: in every controller state whose instance map holds a record for `i`
with stored credential `cred`, `Bind(i, bindingID, req)` returns a nil error
and a binding response whose `Credentials` are exactly `cred`, for every
`bindingID` and `req`, and the controller, with its instance map, is left as
it was. -/
theorem Bind_known_instance {β : Type} (c : userProvidedController ω κ ρ Svc Cred)
    (i bindingID : String) (req : Option β) (inst : userProvidedServiceInstance Cred)
    (cred : Cred) (h : c.instanceMap.lookup i = some (some inst))
    (hc : inst.Credential = some cred) :
    c.Bind i bindingID req = (Outcome.ret (some { Credentials := cred }, none), c) ∧
      (c.Bind i bindingID req).2.instanceMap = c.instanceMap := by
  have hres : c.Bind i bindingID req =
      (Outcome.ret (some { Credentials := cred }, none), c) := by
    unfold userProvidedController.Bind
    rw [h]
    simp only [hc]
  exact ⟨hres, by rw [hres]⟩

/-- Witness for C2: a map that holds `i1` with the credential `secret`. -/
theorem Bind_known_instance_witness :
    Example.withInstance.Bind "i1" "b" (none : Option Unit) =
        (Outcome.ret (some { Credentials := "secret" }, none), Example.withInstance) ∧
      (Example.withInstance.Bind "i1" "b" (none : Option Unit)).2.instanceMap =
        Example.withInstance.instanceMap :=
  Bind_known_instance Example.withInstance "i1" "b" none
    { Name := "one", Credential := some "secret" } "secret" rfl rfl

/-! ## Dispatch of `CreateServiceInstance` -/

/-- A visiting order of the registry holds exactly the registered deployers. -/
theorem mem_order_iff {m : AList (fun _ : String => Deployer ω κ ρ Svc)}
    {order : List (Deployer ω κ ρ Svc)} (h : IsRangeOrder m order) (d : Deployer ω κ ρ Svc) :
    d ∈ order ↔ ∃ k, m.lookup k = some d := by
  rw [h.mem_iff, List.mem_map]
  constructor
  · rintro ⟨e, he, rfl⟩
    exact ⟨e.1, AList.mem_lookup_iff.mpr he⟩
  · rintro ⟨k, hk⟩
    exact ⟨⟨k, d⟩, AList.mem_lookup_iff.mp hk, rfl⟩

/-- When no visited deployer accepts the service ID, the loop falls through to
the final `return` and leaves the world alone. -/
theorem loop_no_match (c : userProvidedController ω κ ρ Svc Cred) (id : String)
    (r : brokerapi.CreateServiceInstanceRequest) (w : ω) :
    ∀ order : List (Deployer ω κ ρ Svc),
      (∀ d ∈ order, d.DoesDeploy r.ServiceID = false) →
      CreateServiceInstance.loop c id (some r) order w =
        (.ret (some { Code := 500, Operation := "provision", DashboardURL := "" }, none), w)
  | [], _ => rfl
  | d :: rest, h => by
    have hd : d.DoesDeploy r.ServiceID = false := h d (List.mem_cons_self _ _)
    have ih := loop_no_match c id r w rest (fun e he => h e (List.mem_cons_of_mem _ he))
    simp only [CreateServiceInstance.loop, hd]
    simpa using ih

/-- When some visited deployer accepts the service ID, the loop returns what
one accepting deployer's `Deploy` returns, called once on the input world. -/
theorem loop_match (c : userProvidedController ω κ ρ Svc Cred) (id : String)
    (r : brokerapi.CreateServiceInstanceRequest) (w : ω) :
    ∀ order : List (Deployer ω κ ρ Svc),
      (∃ d ∈ order, d.DoesDeploy r.ServiceID = true) →
      ∃ d ∈ order, d.DoesDeploy r.ServiceID = true ∧
        CreateServiceInstance.loop c id (some r) order w =
          (.ret (d.Deploy id c.k8sclient c.kubeconfig w).1,
            (d.Deploy id c.k8sclient c.kubeconfig w).2)
  | [], h => by
    obtain ⟨d, hd, _⟩ := h
    cases hd
  | d :: rest, h => by
    by_cases hd : d.DoesDeploy r.ServiceID = true
    · refine ⟨d, List.mem_cons_self _ _, hd, ?_⟩
      simp only [CreateServiceInstance.loop, hd, if_true]
    · have hrest : ∃ e ∈ rest, e.DoesDeploy r.ServiceID = true := by
        obtain ⟨e, he, hm⟩ := h
        rcases List.mem_cons.mp he with rfl | he
        · exact absurd hm hd
        · exact ⟨e, he, hm⟩
      obtain ⟨e, he, hm, heq⟩ := loop_match c id r w rest hrest
      refine ⟨e, List.mem_cons_of_mem _ he, hm, ?_⟩
      simp only [CreateServiceInstance.loop, hd]
      simpa using heq

/-- The two entries of the registry `Example.registry2`. -/
theorem registry2_lookup_cases (k : String) (d : Deployer (List String) Unit Unit String)
    (h : Example.registry2.registeredDeployers.lookup k = some d) :
    (k = "launcher" ∧ d = Example.launcherD) ∨ (k = "fuse" ∧ d = Example.fuseD) := by
  have hmem : (⟨k, d⟩ : Sigma (fun _ : String => Deployer (List String) Unit Unit String)) ∈
      [⟨"launcher", Example.launcherD⟩, ⟨"fuse", Example.fuseD⟩] := AList.mem_lookup_iff.mp h
  rcases List.mem_cons.mp hmem with h1 | h1
  · cases h1
    exact Or.inl ⟨rfl, rfl⟩
  · rcases List.mem_cons.mp h1 with h2 | h2
    · cases h2
      exact Or.inr ⟨rfl, rfl⟩
    · cases h2

/-- C3: for every registry (the empty one included), every visiting order of
it and every request whose `ServiceID` no registered deployer's `DoesDeploy`
accepts, `CreateServiceInstance(id, req)` returns a nil error and a response
with `Code` 500 (internal server error) and `Operation` `"provision"`; the
controller and the world are left as they were, so no `Deploy` was invoked. -/
theorem CreateServiceInstance_no_deployer (c : userProvidedController ω κ ρ Svc Cred)
    (order : List (Deployer ω κ ρ Svc)) (id : String)
    (req : brokerapi.CreateServiceInstanceRequest) (w : ω)
    (horder : IsRangeOrder c.registeredDeployers order)
    (hnone : ∀ k d, c.registeredDeployers.lookup k = some d →
      d.DoesDeploy req.ServiceID = false) :
    c.CreateServiceInstance order id (some req) w =
      (.ret (some { Code := 500, Operation := "provision", DashboardURL := "" }, none), c, w) := by
  have h := loop_no_match c id req w order (fun d hd => by
    obtain ⟨k, hk⟩ := (mem_order_iff horder d).mp hd
    exact hnone k d hk)
  simp only [CreateServiceInstance, h]

/-- Witness for C3: a registry of two deployers, asked for a service that
neither deploys. -/
theorem CreateServiceInstance_no_deployer_witness :
    Example.registry2.CreateServiceInstance [Example.fuseD, Example.launcherD] "i1"
        (some { ServiceID := "keycloak-service-id" }) [] =
      (.ret (some { Code := 500, Operation := "provision", DashboardURL := "" }, none),
        Example.registry2, []) :=
  CreateServiceInstance_no_deployer Example.registry2 [Example.fuseD, Example.launcherD] "i1"
    { ServiceID := "keycloak-service-id" } [] (List.Perm.swap _ _ _)
    (fun k d h => by
      rcases registry2_lookup_cases k d h with ⟨_, rfl⟩ | ⟨_, rfl⟩ <;> rfl)

/-- C4: for every registry, every visiting order of it and every request whose
`ServiceID` at least one registered deployer's `DoesDeploy` accepts, the
response and error of `CreateServiceInstance(id, req)` are exactly the pair
returned by `Deploy(id, k8sclient, kubeconfig)` of one registered, accepting
deployer, and the world after the call is the world after that single `Deploy`
on the input world; when the accepting deployers all sit under one registry
key, the result is the one of the deployer registered there, unmodified. The
controller is left as it was. -/
theorem CreateServiceInstance_delegates (c : userProvidedController ω κ ρ Svc Cred)
    (order : List (Deployer ω κ ρ Svc)) (id : String)
    (req : brokerapi.CreateServiceInstanceRequest) (w : ω)
    (horder : IsRangeOrder c.registeredDeployers order)
    (hsome : ∃ k d, c.registeredDeployers.lookup k = some d ∧
      d.DoesDeploy req.ServiceID = true) :
    (∃ k d, c.registeredDeployers.lookup k = some d ∧ d.DoesDeploy req.ServiceID = true ∧
      c.CreateServiceInstance order id (some req) w =
        (.ret (d.Deploy id c.k8sclient c.kubeconfig w).1, c,
          (d.Deploy id c.k8sclient c.kubeconfig w).2)) ∧
    (∀ k0 d0, c.registeredDeployers.lookup k0 = some d0 →
      (∀ k d, c.registeredDeployers.lookup k = some d → d.DoesDeploy req.ServiceID = true →
        k = k0) →
      c.CreateServiceInstance order id (some req) w =
        (.ret (d0.Deploy id c.k8sclient c.kubeconfig w).1, c,
          (d0.Deploy id c.k8sclient c.kubeconfig w).2)) := by
  have hex : ∃ d ∈ order, d.DoesDeploy req.ServiceID = true := by
    obtain ⟨k, d, hk, hd⟩ := hsome
    exact ⟨d, (mem_order_iff horder d).mpr ⟨k, hk⟩, hd⟩
  obtain ⟨d, hmem, hd, heq⟩ := loop_match c id req w order hex
  obtain ⟨k, hk⟩ := (mem_order_iff horder d).mp hmem
  have hres : c.CreateServiceInstance order id (some req) w =
      (.ret (d.Deploy id c.k8sclient c.kubeconfig w).1, c,
        (d.Deploy id c.k8sclient c.kubeconfig w).2) := by
    simp only [CreateServiceInstance, heq]
  refine ⟨⟨k, d, hk, hd, hres⟩, ?_⟩
  intro k0 d0 hk0 huniq
  have hkk : k = k0 := huniq k d hk hd
  subst hkk
  have hdd : d = d0 := by
    rw [hk] at hk0
    exact Option.some.inj hk0
  subst hdd
  exact hres

/-- Witness for C4: a registry of two deployers, asked for the service of the
first; the world records one deployment, by that deployer. -/
theorem CreateServiceInstance_delegates_witness :
    Example.registry2.CreateServiceInstance [Example.fuseD, Example.launcherD] "i1"
        (some { ServiceID := "fuse-service-id" }) [] =
      (.ret (some { Code := 202, Operation := "", DashboardURL := "https://fuse-i1" }, none),
        Example.registry2, ["fuse/i1"]) :=
  (CreateServiceInstance_delegates Example.registry2 [Example.fuseD, Example.launcherD] "i1"
    { ServiceID := "fuse-service-id" } [] (List.Perm.swap _ _ _)
    ⟨"fuse", Example.fuseD, rfl, rfl⟩).2 "fuse" Example.fuseD rfl
    (fun k d h hd => by
      rcases registry2_lookup_cases k d h with ⟨_, rfl⟩ | ⟨rfl, _⟩
      · exact absurd hd (by decide)
      · rfl)

/-! ## The catalog -/

/-- Erasing a key from a list without duplicate keys filters it out. -/
theorem kerase_eq_filter {V : Type} (a : String) :
    ∀ l : List (Sigma (fun _ : String => V)), l.NodupKeys →
      List.kerase a l = l.filter (fun e => !(e.1 == a))
  | [], _ => rfl
  | e :: l, h => by
    have hl := (List.nodupKeys_cons.mp h).2
    have hnot := (List.nodupKeys_cons.mp h).1
    by_cases hea : a = e.1
    · rw [List.kerase_cons_eq hea]
      subst hea
      have hsame : List.kerase e.1 l = l := List.kerase_of_not_mem_keys hnot
      rw [List.filter_cons_of_neg (by simp), ← kerase_eq_filter e.1 l hl, hsame]
    · rw [List.kerase_cons_ne hea, kerase_eq_filter a l hl]
      have hne : (e.1 == a) = false := by
        simpa using fun h => hea h.symm
      simp [hne]

/-- The registry after a run of registrations on top of a registry `m`: the
last registration of each identity, newest first, then the entries of `m` whose
key was not registered again. -/
theorem foldl_insert_entries :
    ∀ (regs : List (Deployer ω κ ρ Svc)) (m : AList (fun _ : String => Deployer ω κ ρ Svc)),
      (regs.foldl (fun m d => m.insert d.GetID d) m).entries =
        (lastRegistered regs).reverse.map
            (fun d => (⟨d.GetID, d⟩ : Sigma (fun _ : String => Deployer ω κ ρ Svc))) ++
          m.entries.filter (fun e => !(regs.any (fun d => d.GetID == e.1)))
  | [], m => by simp [lastRegistered]
  | d :: rest, m => by
    rw [List.foldl_cons, foldl_insert_entries rest, AList.insert_entries,
      kerase_eq_filter d.GetID m.entries m.nodupKeys]
    by_cases hany : rest.any (fun e => e.GetID == d.GetID) = true
    · simp only [lastRegistered, hany, if_true]
      rw [List.filter_cons_of_neg (by simp [hany]), List.filter_filter]
      congr 1
      apply List.filter_congr
      intro e _
      have hsymm : (e.1 == d.GetID) = (d.GetID == e.1) := BEq.comm
      simp [hsymm, Bool.and_comm]
    · simp only [lastRegistered, hany]
      rw [List.filter_cons_of_pos (by simpa using hany), List.filter_filter]
      simp only [Bool.false_eq_true, if_false, List.reverse_cons, List.map_append, List.map_cons,
        List.map_nil, List.append_assoc, List.singleton_append]
      congr 2
      apply List.filter_congr
      intro e _
      have hsymm : (e.1 == d.GetID) = (d.GetID == e.1) := BEq.comm
      simp [hsymm, Bool.and_comm]

/-- A run of `RegisterDeployer` calls touches the registry only. -/
theorem foldl_RegisterDeployer_registry :
    ∀ (regs : List (Deployer ω κ ρ Svc)) (c : userProvidedController ω κ ρ Svc Cred),
      (regs.foldl RegisterDeployer c).registeredDeployers =
        regs.foldl (fun m d => m.insert d.GetID d) c.registeredDeployers
  | [], _ => rfl
  | d :: rest, c => by
    rw [List.foldl_cons, List.foldl_cons, foldl_RegisterDeployer_registry rest]
    rfl

/-- The values of the registry of `registerAll regs` are the deployers
registered last under each identity. -/
theorem registry_values_perm (regs : List (Deployer ω κ ρ Svc)) (brokerNS : String)
    (k8sclient : κ) (kubeconfig : ρ) :
    (((registerAll regs brokerNS k8sclient kubeconfig :
      userProvidedController ω κ ρ Svc Cred).registeredDeployers).entries.map Sigma.snd).Perm
      (lastRegistered regs) := by
  unfold registerAll
  rw [foldl_RegisterDeployer_registry, foldl_insert_entries]
  have hempty : (CreateController brokerNS k8sclient kubeconfig :
      userProvidedController ω κ ρ Svc Cred).registeredDeployers.entries = [] := rfl
  rw [hempty]
  simp only [List.filter_nil, List.append_nil, List.map_map]
  have hid : (Sigma.snd ∘ fun d : Deployer ω κ ρ Svc =>
      (⟨d.GetID, d⟩ : Sigma (fun _ : String => Deployer ω κ ρ Svc))) = id := rfl
  rw [hid, List.map_id]
  exact List.reverse_perm _

/-- The loop of `Catalog` appends the entries of the visited deployers. -/
theorem Catalog_loop_eq :
    ∀ (order : List (Deployer ω κ ρ Svc)) (services : List Svc),
      Catalog.loop order services = services ++ order.flatMap (fun d => d.GetCatalogEntries)
  | [], services => by simp [Catalog.loop]
  | d :: rest, services => by
    simp [Catalog.loop, Catalog_loop_eq rest, List.flatMap_cons]

/-- C5: after any sequence `regs` of `RegisterDeployer` calls on a fresh
controller, and for every visiting order of the registry, `Catalog()` returns
a nil error and a catalog whose `Services` are a permutation of the
concatenation of `GetCatalogEntries()` over the deployers registered last
under each identity (so the entries of a replaced deployer do not appear);
they are empty when nothing is registered; and two registration sequences
that leave the same last-registered deployers in force, in whatever order,
give catalogs that are permutations of each other. -/
theorem Catalog_lists_last_registered (regs : List (Deployer ω κ ρ Svc)) (brokerNS : String)
    (k8sclient : κ) (kubeconfig : ρ) (order : List (Deployer ω κ ρ Svc))
    (horder : IsRangeOrder (registerAll regs brokerNS k8sclient kubeconfig :
      userProvidedController ω κ ρ Svc Cred).registeredDeployers order) :
    ∃ services : List Svc,
      ((registerAll regs brokerNS k8sclient kubeconfig :
        userProvidedController ω κ ρ Svc Cred).Catalog order).1 =
          (some { Services := services }, none) ∧
      services.Perm ((lastRegistered regs).flatMap (fun d => d.GetCatalogEntries)) ∧
      (regs = [] → services = []) ∧
      ∀ (regs2 order2 : List (Deployer ω κ ρ Svc)) (services2 : List Svc),
        (lastRegistered regs2).Perm (lastRegistered regs) →
        IsRangeOrder (registerAll regs2 brokerNS k8sclient kubeconfig :
          userProvidedController ω κ ρ Svc Cred).registeredDeployers order2 →
        ((registerAll regs2 brokerNS k8sclient kubeconfig :
          userProvidedController ω κ ρ Svc Cred).Catalog order2).1 =
            (some { Services := services2 }, none) →
        services2.Perm services := by
  have key : ∀ (rs ord : List (Deployer ω κ ρ Svc)),
      IsRangeOrder (registerAll rs brokerNS k8sclient kubeconfig :
        userProvidedController ω κ ρ Svc Cred).registeredDeployers ord →
      (Catalog.loop ord ([] : List Svc)).Perm
        ((lastRegistered rs).flatMap (fun d => d.GetCatalogEntries)) := by
    intro rs ord h
    rw [Catalog_loop_eq, List.nil_append]
    exact List.Perm.flatMap_right _
      (List.Perm.trans h (registry_values_perm rs brokerNS k8sclient kubeconfig))
  refine ⟨Catalog.loop order [], rfl, key regs order horder, ?_, ?_⟩
  · intro hnil
    subst hnil
    have h := key [] order horder
    simpa [lastRegistered] using h
  · intro regs2 order2 services2 hperm horder2 hcat
    have hs : services2 = Catalog.loop order2 [] := by
      have h1 : (some ({ Services := Catalog.loop order2 [] } : brokerapi.Catalog Svc),
          (none : Option GoError)) = (some { Services := services2 }, none) := hcat
      have h2 := Option.some.inj (Prod.mk.inj h1).1
      exact (congrArg brokerapi.Catalog.Services h2).symm
    rw [hs]
    exact ((key regs2 order2 horder2).trans (List.Perm.flatMap_right _ hperm)).trans
      (key regs order horder).symm

/-- Witness for C5: after registering `fuseD`, `launcherD` and then `fuseD2`
under the identity of `fuseD`, with the registry visited `launcherD` first,
the catalog lists `launcher` and `fuse-v2`, not `fuse`. -/
theorem Catalog_lists_last_registered_witness :
    IsRangeOrder Example.registry3.registeredDeployers [Example.launcherD, Example.fuseD2] ∧
      (Example.registry3.Catalog [Example.launcherD, Example.fuseD2]).1 =
        (some { Services := ["launcher", "fuse-v2"] }, none) ∧
      ∃ services : List String,
        (Example.registry3.Catalog [Example.launcherD, Example.fuseD2]).1 =
          (some { Services := services }, none) ∧
        services.Perm ["launcher", "fuse-v2"] :=
  ⟨List.Perm.swap _ _ _, rfl,
    (Catalog_lists_last_registered
      [Example.fuseD, Example.launcherD, Example.fuseD2] "broker" () ()
      [Example.launcherD, Example.fuseD2] (List.Perm.swap _ _ _)).imp
      (fun _ h => ⟨h.1, h.2.1⟩)⟩

/-! ## The no-op operations and the instance map as an invariant -/

/-- C7: in every controller state and for every choice of arguments, `UnBind`
returns a nil error and `RemoveServiceInstance` returns a nil error with an
empty delete response, both leaving the controller as it was; the results are
the same in any other controller state `c2`, so neither the instance map nor
the deployer registry is consulted. -/
theorem UnBind_RemoveServiceInstance_succeed (c c2 : userProvidedController ω κ ρ Svc Cred)
    (instanceID bindingID serviceID planID : String) (acceptsIncomplete : Bool) :
    c.UnBind instanceID bindingID serviceID planID = (none, c) ∧
      c.RemoveServiceInstance instanceID serviceID planID acceptsIncomplete =
        ((some { Operation := "" }, none), c) ∧
      (c.UnBind instanceID bindingID serviceID planID).1 =
        (c2.UnBind instanceID bindingID serviceID planID).1 ∧
      (c.RemoveServiceInstance instanceID serviceID planID acceptsIncomplete).1 =
        (c2.RemoveServiceInstance instanceID serviceID planID acceptsIncomplete).1 :=
  ⟨rfl, rfl, rfl, rfl⟩

/-- No call changes the instance map. -/
theorem step_instanceMap {β : Type} (s : userProvidedController ω κ ρ Svc Cred × ω)
    (op : Op ω κ ρ Svc β) : (step s op).1.instanceMap = s.1.instanceMap := by
  cases op with
  | Bind instanceID bindingID req =>
    simp only [step, userProvidedController.Bind]
    split
    · rfl
    · rfl
    · split <;> rfl
  | _ => rfl

/-- The instance map of a reachable state is empty. -/
theorem reachable_instanceMap {β : Type} {s : userProvidedController ω κ ρ Svc Cred × ω}
    (h : Reachable β s) : s.1.instanceMap = ∅ := by
  induction h with
  | create brokerNS k8sclient kubeconfig w => rfl
  | call s op _ _ ih => rw [step_instanceMap, ih]

/-- C10: `CreateController` starts the instance map empty; every `Controller`
operation (`RegisterDeployer`, `Catalog`, `CreateServiceInstance`,
`GetServiceInstanceLastOperation`, `RemoveServiceInstance`, `Bind`, `UnBind`)
leaves the instance map exactly as it found it; hence in every state reachable
from `CreateController` by any sequence of these operations the map is empty
and `Bind(i, ...)` fails with `errNoSuchInstance` for every instance ID `i`. -/
theorem instanceMap_stays_empty (β : Type) :
    (∀ (brokerNS : String) (k8sclient : κ) (kubeconfig : ρ),
      (CreateController brokerNS k8sclient kubeconfig :
        userProvidedController ω κ ρ Svc Cred).instanceMap = ∅) ∧
    (∀ (s : userProvidedController ω κ ρ Svc Cred × ω) (op : Op ω κ ρ Svc β),
      (step s op).1.instanceMap = s.1.instanceMap) ∧
    (∀ s : userProvidedController ω κ ρ Svc Cred × ω, Reachable β s →
      s.1.instanceMap = ∅ ∧
      ∀ (i bindingID : String) (req : Option β),
        s.1.Bind i bindingID req =
          (Outcome.ret (none, some (GoError.errNoSuchInstance i)), s.1)) := by
  refine ⟨fun _ _ _ => rfl, step_instanceMap, fun s hs => ?_⟩
  have hm := reachable_instanceMap hs
  refine ⟨hm, fun i bindingID req => ?_⟩
  have hl : s.1.instanceMap.lookup i = none := by rw [hm]; rfl
  unfold userProvidedController.Bind
  rw [hl]

/-- Witness for C10: in the state reached by registering a deployer and
creating the instance `i1` with it, the creation was accepted (code 202) and
`Bind` for `i1` still fails with `errNoSuchInstance`. -/
theorem instanceMap_stays_empty_witness :
    Reachable Unit Example.afterCreate ∧
      (Example.registry1.CreateServiceInstance [Example.fuseD] "i1"
        (some { ServiceID := "fuse-service-id" }) []).1 =
        .ret (some { Code := 202, DashboardURL := "https://fuse-i1" }, none) ∧
      Example.afterCreate.1.Bind "i1" "b" (some ()) =
        (Outcome.ret (none, some (GoError.errNoSuchInstance "i1")), Example.afterCreate.1) :=
  ⟨.call _ _ (.call _ _ (.create _ _ _ _) trivial) (List.Perm.refl _), rfl,
    ((instanceMap_stays_empty Unit).2.2 Example.afterCreate
      (.call _ _ (.call _ _ (.create _ _ _ _) trivial) (List.Perm.refl _))).2 "i1" "b" (some ())⟩

end controller

/-! ## The fuse deployer -/

namespace fuse

variable {ω : Type}

/-- C6: when the deployment-config client is obtained, let `p1`, `p2`, `p3` be
the outcomes of `getPodStatus` for `"syndesis-oauthproxy"`, `"syndesis-server"`
and `"syndesis-ui"`, each run in the world left by the one before. If some
probe's state is not `Succeeded`, `LastOperation` returns exactly the state,
description and error of the first such probe, and the world it returns is the
one left by that probe, so no later probe ran; if all three are `Succeeded` it
returns `Succeeded` with the description `"fuse deployed successfully"` and a
nil error; and the state returned is `Succeeded` if and only if all three
probes report `Succeeded`. -/
theorem LastOperation_first_unready_probe (instanceID : String) (osclient : ClientFactory ω)
    (dcClient : AppsV1Client ω) (w : ω) (hclient : osclient.AppsClient = .ok dcClient) :
    let p1 := getPodStatus "syndesis-oauthproxy" ("fuse-" ++ instanceID) dcClient w
    let p2 := getPodStatus "syndesis-server" ("fuse-" ++ instanceID) dcClient p1.2
    let p3 := getPodStatus "syndesis-ui" ("fuse-" ++ instanceID) dcClient p2.2
    let result := LastOperation instanceID osclient w
    (p1.1.1 ≠ brokerapi.StateSucceeded →
      result = (({ State := p1.1.1, Description := p1.1.2.1 }, p1.1.2.2), p1.2)) ∧
    (p1.1.1 = brokerapi.StateSucceeded → p2.1.1 ≠ brokerapi.StateSucceeded →
      result = (({ State := p2.1.1, Description := p2.1.2.1 }, p2.1.2.2), p2.2)) ∧
    (p1.1.1 = brokerapi.StateSucceeded → p2.1.1 = brokerapi.StateSucceeded →
      p3.1.1 ≠ brokerapi.StateSucceeded →
      result = (({ State := p3.1.1, Description := p3.1.2.1 }, p3.1.2.2), p3.2)) ∧
    (p1.1.1 = brokerapi.StateSucceeded → p2.1.1 = brokerapi.StateSucceeded →
      p3.1.1 = brokerapi.StateSucceeded →
      result = (({ State := brokerapi.StateSucceeded,
                   Description := "fuse deployed successfully" }, none), p3.2)) ∧
    (result.1.1.State = brokerapi.StateSucceeded ↔
      p1.1.1 = brokerapi.StateSucceeded ∧ p2.1.1 = brokerapi.StateSucceeded ∧
        p3.1.1 = brokerapi.StateSucceeded) := by
  intro p1 p2 p3 result
  have hres : result = LastOperation.loop ("fuse-" ++ instanceID) dcClient podsToWatch w := by
    show LastOperation instanceID osclient w = _
    unfold LastOperation
    rw [hclient]
  have c1 : p1.1.1 ≠ brokerapi.StateSucceeded →
      result = (({ State := p1.1.1, Description := p1.1.2.1 }, p1.1.2.2), p1.2) := by
    intro h
    rw [hres]
    simp only [podsToWatch, LastOperation.loop]
    rw [if_pos h]
  have c2 : p1.1.1 = brokerapi.StateSucceeded → p2.1.1 ≠ brokerapi.StateSucceeded →
      result = (({ State := p2.1.1, Description := p2.1.2.1 }, p2.1.2.2), p2.2) := by
    intro h1 h2
    rw [hres]
    simp only [podsToWatch, LastOperation.loop]
    rw [if_neg (not_not.mpr h1), if_pos h2]
  have c3 : p1.1.1 = brokerapi.StateSucceeded → p2.1.1 = brokerapi.StateSucceeded →
      p3.1.1 ≠ brokerapi.StateSucceeded →
      result = (({ State := p3.1.1, Description := p3.1.2.1 }, p3.1.2.2), p3.2) := by
    intro h1 h2 h3
    rw [hres]
    simp only [podsToWatch, LastOperation.loop]
    rw [if_neg (not_not.mpr h1), if_neg (not_not.mpr h2), if_pos h3]
  have c4 : p1.1.1 = brokerapi.StateSucceeded → p2.1.1 = brokerapi.StateSucceeded →
      p3.1.1 = brokerapi.StateSucceeded →
      result = (({ State := brokerapi.StateSucceeded,
                   Description := "fuse deployed successfully" }, none), p3.2) := by
    intro h1 h2 h3
    rw [hres]
    simp only [podsToWatch, LastOperation.loop]
    rw [if_neg (not_not.mpr h1), if_neg (not_not.mpr h2), if_neg (not_not.mpr h3)]
  refine ⟨c1, c2, c3, c4, ?_⟩
  constructor
  · intro hs
    by_cases h1 : p1.1.1 = brokerapi.StateSucceeded
    · by_cases h2 : p2.1.1 = brokerapi.StateSucceeded
      · by_cases h3 : p3.1.1 = brokerapi.StateSucceeded
        · exact ⟨h1, h2, h3⟩
        · rw [c3 h1 h2 h3] at hs
          exact absurd hs h3
      · rw [c2 h1 h2] at hs
        exact absurd hs h2
    · rw [c1 h1] at hs
      exact absurd hs h1
  · rintro ⟨h1, h2, h3⟩
    rw [c4 h1 h2 h3]

/-- Witness for C6: on a cluster whose second fetch finds an unready condition
the probes are `Succeeded`, `InProgress`, and the result is `InProgress` with
the second probe's message after two fetches. -/
theorem LastOperation_first_unready_probe_witness :
    Example.pollingFactory.AppsClient = .ok Example.pollingClient ∧
      LastOperation "x" Example.pollingFactory 0 =
        (({ State := "in progress", Description := "rollout in progress" }, none), 2) :=
  ⟨rfl, (LastOperation_first_unready_probe "x" Example.pollingFactory Example.pollingClient 0
    rfl).2.1 (by decide) (by decide)⟩

/-- C8: `getPodStatus` does not report on the deployment config named by its
argument `podName`. Its outcome is the same for every `podName`; on the
cluster `Example.cluster`, where `syndesis-server` has a condition with status
`False` and `syndesis-ui` cannot be fetched, it reports `Succeeded` for both
after fetching `syndesis-oauthproxy`, and `LastOperation` reports `Succeeded`
after fetching `syndesis-oauthproxy` three times. -/
theorem getPodStatus_fetches_oauthproxy_only :
    (∀ (σ : Type) (podName podName2 nspace : String) (dcClient : AppsV1Client σ) (w : σ),
        getPodStatus podName nspace dcClient w = getPodStatus podName2 nspace dcClient w) ∧
      Example.cluster "syndesis-server" =
        .ok { Conditions :=
          [{ Status := "False", Message := "replication controller is not ready" }] } ∧
      getPodStatus "syndesis-server" "fuse-x" Example.dcClient [] =
        ((brokerapi.StateSucceeded, "", none), [("fuse-x", "syndesis-oauthproxy")]) ∧
      Example.cluster "syndesis-ui" = .error (.fundamental "deploymentconfig not found") ∧
      getPodStatus "syndesis-ui" "fuse-x" Example.dcClient [] =
        ((brokerapi.StateSucceeded, "", none), [("fuse-x", "syndesis-oauthproxy")]) ∧
      LastOperation "x" Example.osclient [] =
        (({ State := brokerapi.StateSucceeded, Description := "fuse deployed successfully" },
          none),
          [("fuse-x", "syndesis-oauthproxy"), ("fuse-x", "syndesis-oauthproxy"),
            ("fuse-x", "syndesis-oauthproxy")]) := by
  refine ⟨fun _ _ _ _ _ _ => rfl, rfl, ?_, rfl, ?_, ?_⟩ <;> decide

/-- C9: `getRouteHostname` does not keep the cluster domain of the route host
unchanged. For the route `registry-console` of namespace `default` with host
`registry-console-default.127.0.0.1.nip.io` and the namespace `fuse-abc` it
returns `fuse-fuse-abc.127.0.0.1.nip.`, not `fuse-fuse-abc.127.0.0.1.nip.io`:
`strings.Trim` also removes the trailing `io`, whose letters occur in the
cutset `registry-console-default`; `createFuseCustomResource` then returns the
dashboard URL `https://fuse-fuse-abc.127.0.0.1.nip.`. -/
theorem getRouteHostname_cuts_domain_end :
    (Example.routeClient.Get "default" "registry-console" []).1 =
        .ok { Name := "registry-console", Namespace := "default",
              Host := "registry-console" ++ "-" ++ "default" ++ ".127.0.0.1.nip.io" } ∧
      (getRouteHostname "fuse-abc" Example.osclient []).1 =
        ("fuse-fuse-abc.127.0.0.1.nip.", none) ∧
      (getRouteHostname "fuse-abc" Example.osclient []).1.1 ≠
        "fuse-" ++ "fuse-abc" ++ ".127.0.0.1.nip.io" ∧
      (createFuseCustomResource "fuse-abc" "user"
        (fun _ => .ok { Create := fun _ _ w => (none, w) }) Example.osclient []).1 =
        ("https://fuse-fuse-abc.127.0.0.1.nip.", none) := by
  refine ⟨rfl, ?_, ?_, ?_⟩ <;> decide

end fuse
